import Mathlib

/-!
Shallow embedding of the request handler in `src/app.py` (a single-endpoint
Flask application: dataset filtering by disease text, per-row directions
enrichment, and map center/zoom composition), together with theorems about
the claims on its behaviour.

Numbers that the Python code handles as floats (coordinates, durations in
seconds, distances in meters) are modelled as rationals (`ℚ`); Python's
floor division `//` is `Int.fdiv`, and Python's `%` on integers is
`Int.fmod`.  The external Mapbox directions client is modelled as an oracle
mapping the index of the processed row to the outcome of the call.
-/

/-! ## Characters and strings (models of Python `str.lower`, `str.strip`, substring containment) -/

/-- ASCII lower-casing of one character, as Python lower-cases the letters
used by the dataset (`A`..`Z` have codes 65..90; adding 32 yields `a`..`z`). -/
def lowerChar (c : Char) : Char :=
  if 65 ≤ c.toNat ∧ c.toNat ≤ 90 then Char.ofNat (c.toNat + 32) else c

/-- Lower-casing of a character list (model of Python `str.lower()`). -/
def lowerList (l : List Char) : List Char :=
  l.map lowerChar

/-- Whitespace characters removed by Python `str.strip()`:
space, tab, newline, carriage return, vertical tab, form feed. -/
def isSpaceChar (c : Char) : Bool :=
  c.toNat == 32 || c.toNat == 9 || c.toNat == 10 || c.toNat == 13 ||
    c.toNat == 11 || c.toNat == 12

/-- Model of Python `str.strip()`: drop whitespace from both ends. -/
def stripChars (l : List Char) : List Char :=
  ((l.dropWhile isSpaceChar).reverse.dropWhile isSpaceChar).reverse

/-- `str.strip()` packaged on `String`. -/
def stripString (s : String) : String :=
  String.mk (stripChars s.data)

/-- `str.lower()` packaged on `String`. -/
def lowerString (s : String) : String :=
  String.mk (lowerList s.data)

/-- Substring containment on character lists (model of Python `in` /
pandas `str.contains(..., regex=False)`). -/
def containsSub (needle : List Char) : List Char → Bool
  | [] => needle.isEmpty
  | c :: rest => needle.isPrefixOf (c :: rest) || containsSub needle rest

/-- Case-insensitive substring containment, as the spec reads
"the category contains the term ignoring case". -/
def containsIgnoreCase (category term : String) : Bool :=
  containsSub (lowerList term.data) (lowerList category.data)

/-! ## The data model (`LocationRecord` is one cleaned CSV row) -/

/-- One cleaned row of the CSV dataset: columns `LAT`, `LON`, `Disease`
are required (coordinates already coerced to numbers at load time),
`Name` and `Details` are optional. -/
structure LocationRecord where
  LAT : ℚ
  LON : ℚ
  Disease : String
  Name : Option String := none
  Details : Option String := none
deriving DecidableEq

/-- The query filter of `index` (app.py lines 125..154): strip the raw
form value, lower-case it, and — when the result is non-empty — keep the
rows whose `Disease` column contains it case-insensitively
(`str.contains(search_disease_lower, case=False, regex=False)` lower-cases
both sides).  An empty or whitespace-only term performs no search, so the
found list stays empty. -/
def filterRecords (records : List LocationRecord) (disease_name : String) :
    List LocationRecord :=
  let search_disease := stripChars disease_name.data
  let search_disease_lower := lowerList search_disease
  if search_disease_lower.isEmpty then []
  else records.filter fun r =>
    containsSub (lowerList search_disease_lower) (lowerList r.Disease.data)

/-! ## Elementary lemmas about the character model -/

lemma lowerChar_lowerChar (c : Char) : lowerChar (lowerChar c) = lowerChar c := by
  by_cases h : 65 ≤ c.toNat ∧ c.toNat ≤ 90
  · have hc : lowerChar c = Char.ofNat (c.toNat + 32) := by rw [lowerChar, if_pos h]
    rw [hc]
    obtain ⟨h1, h2⟩ := h
    generalize c.toNat = n at h1 h2
    interval_cases n <;> decide
  · have hc : lowerChar c = c := by rw [lowerChar, if_neg h]
    rw [hc]
    exact hc

lemma isSpaceChar_lowerChar (c : Char) : isSpaceChar (lowerChar c) = isSpaceChar c := by
  by_cases h : 65 ≤ c.toNat ∧ c.toNat ≤ 90
  · have hc : lowerChar c = Char.ofNat (c.toNat + 32) := by rw [lowerChar, if_pos h]
    rw [hc, isSpaceChar, isSpaceChar]
    obtain ⟨h1, h2⟩ := h
    generalize c.toNat = n at h1 h2 ⊢
    interval_cases n <;> decide
  · have hc : lowerChar c = c := by rw [lowerChar, if_neg h]
    rw [hc]

lemma lowerList_lowerList (l : List Char) : lowerList (lowerList l) = lowerList l := by
  induction l with
  | nil => rfl
  | cons c rest ih =>
    simp only [lowerList, List.map_cons] at ih ⊢
    rw [lowerChar_lowerChar, ih]

lemma stripChars_lowerList (l : List Char) :
    stripChars (lowerList l) = lowerList (stripChars l) := by
  have hcomp : (isSpaceChar ∘ lowerChar) = isSpaceChar := funext isSpaceChar_lowerChar
  unfold stripChars lowerList
  rw [List.dropWhile_map, hcomp, ← List.map_reverse, List.dropWhile_map, hcomp,
    ← List.map_reverse]

lemma stripChars_eq_nil (l : List Char) (h : l.all isSpaceChar = true) :
    stripChars l = [] := by
  have h1 : l.dropWhile isSpaceChar = [] :=
    List.dropWhile_eq_nil_iff.mpr (by simpa [List.all_eq_true] using h)
  simp [stripChars, h1]

/-! ## Number formatting (app.py lines 204..221) -/

/-- Floor of a rational, the value of Python float floor-division results
such as `duration_seconds // 60` (computable: the floor of `num/den` with
`den > 0` is the floor division of `num` by `den`). -/
def ratFloor (q : ℚ) : ℤ :=
  Int.fdiv q.num q.den

/-- Travel-time text (app.py lines 204..214): `minutes = int(duration_seconds // 60)`,
`hours = minutes // 60`, `remaining_minutes = minutes % 60`; at least one hour
renders as hours and remaining minutes, otherwise as total minutes. -/
def formatDurationText (duration_seconds : ℚ) : String :=
  let minutes : ℤ := ratFloor (duration_seconds / 60)
  let hours : ℤ := Int.fdiv minutes 60
  let remaining_minutes : ℤ := Int.fmod minutes 60
  if 0 < hours then
    toString hours ++ " hr " ++ toString remaining_minutes ++ " min (driving)"
  else
    toString minutes ++ " min (driving)"

/-- Round to the nearest integer, ties to even — the rounding Python's
fixed-point rendering `f"{x:.2f}"` applies to the scaled value. -/
def roundHalfEven (q : ℚ) : ℤ :=
  let f := ratFloor q
  if q - f < 1/2 then f
  else if 1/2 < q - f then f + 1
  else if Int.fmod f 2 = 0 then f else f + 1

/-- Two-digit zero-padded rendering of a fractional part below 100. -/
def pad2 (n : ℕ) : String :=
  if n < 10 then "0" ++ toString n else toString n

/-- Fixed-point rendering with two decimal places (model of `f"{x:.2f}"`). -/
def formatFixed2 (q : ℚ) : String :=
  let n := roundHalfEven (q * 100)
  if n < 0 then
    "-" ++ toString ((-n).toNat / 100) ++ "." ++ pad2 ((-n).toNat % 100)
  else
    toString (n.toNat / 100) ++ "." ++ pad2 (n.toNat % 100)

/-- Travel-distance text (app.py lines 216..221): `distance_km = distance_meters / 1000`
rendered as `f"{distance_km:.2f} km (driving)"`. -/
def formatDistanceText (distance_meters : ℚ) : String :=
  let distance_km := distance_meters / 1000
  formatFixed2 distance_km ++ " km (driving)"

/-! ## Lemmas about the formatting helpers -/

lemma ratFloor_eq_floor (q : ℚ) : ratFloor q = ⌊q⌋ := by
  rw [ratFloor, Int.fdiv_eq_ediv _ (by exact_mod_cast Nat.zero_le q.den)]
  exact Rat.floor_def.symm

lemma roundHalfEven_nonneg (q : ℚ) (h : 0 ≤ q) : 0 ≤ roundHalfEven q := by
  have hf : (0:ℤ) ≤ ratFloor q := by
    rw [ratFloor_eq_floor]; exact Int.floor_nonneg.mpr h
  simp only [roundHalfEven]
  split_ifs <;> omega

lemma pad2_length (n : ℕ) (h : n < 100) : (pad2 n).length = 2 := by
  revert h
  revert n
  decide

/-- Claim C7: for a non-negative duration in seconds the travel-time text is
"H hr M min (driving)" when the duration is at least one hour (3600 s) and
"M min (driving)" otherwise, with minutes truncated from seconds
(`minutes = int(duration_seconds // 60)`, `hours = minutes // 60`,
`remaining_minutes = minutes % 60`); in particular 125 s renders as
"2 min (driving)" and 3900 s renders as "1 hr 5 min (driving)". -/
theorem C7_duration_formatting (d : ℚ) (h : 0 ≤ d) :
    (d < 3600 → formatDurationText d = toString (ratFloor (d / 60)) ++ " min (driving)") ∧
    (3600 ≤ d → formatDurationText d =
        toString (Int.fdiv (ratFloor (d / 60)) 60) ++ " hr " ++
        toString (Int.fmod (ratFloor (d / 60)) 60) ++ " min (driving)") ∧
    ratFloor (d / 60) = ⌊d / 60⌋ ∧
    formatDurationText 125 = "2 min (driving)" ∧
    formatDurationText 3900 = "1 hr 5 min (driving)" := by
  have hrf : ratFloor (d / 60) = ⌊d / 60⌋ := ratFloor_eq_floor _
  have hm0 : (0:ℤ) ≤ ⌊d / 60⌋ := Int.floor_nonneg.mpr (by positivity)
  have h1 : (60:ℤ) ≤ ⌊d / 60⌋ ↔ (60:ℚ) ≤ d / 60 := by
    rw [Int.le_floor]
    constructor <;> intro hx <;> exact_mod_cast hx
  have h2 : (60:ℚ) ≤ d / 60 ↔ 3600 ≤ d := by
    rw [le_div_iff₀ (by norm_num : (0:ℚ) < 60)]
    constructor <;> intro <;> linarith
  have hiff : 0 < Int.fdiv (ratFloor (d / 60)) 60 ↔ 3600 ≤ d := by
    rw [hrf, Int.fdiv_eq_ediv _ (by norm_num)]
    constructor
    · intro hpos
      exact h2.mp (h1.mp (by omega))
    · intro h36
      have := h1.mpr (h2.mpr h36)
      omega
  have e125 : formatDurationText 125 = "2 min (driving)" := by
    have hc : ratFloor ((125:ℚ) / 60) = 2 := by
      rw [ratFloor_eq_floor]; norm_num [Int.floor_eq_iff]
    simp only [formatDurationText, hc]
    decide
  have e3900 : formatDurationText 3900 = "1 hr 5 min (driving)" := by
    have hc : ratFloor ((3900:ℚ) / 60) = 65 := by
      rw [ratFloor_eq_floor]; norm_num [Int.floor_eq_iff]
    simp only [formatDurationText, hc]
    decide
  refine ⟨?_, ?_, hrf, e125, e3900⟩
  · intro hlt
    have hno : ¬ 0 < Int.fdiv (ratFloor (d / 60)) 60 := by
      intro hc
      exact absurd (hiff.mp hc) (by linarith)
    simp only [formatDurationText, if_neg hno]
  · intro hge
    simp only [formatDurationText, if_pos (hiff.mpr hge)]

/-- Claim C7 witness: the duration-formatting theorem instantiated at 125 s. -/
theorem C7_duration_formatting_witness :
    (0:ℚ) ≤ 125 ∧
    (((125:ℚ) < 3600 →
        formatDurationText 125 = toString (ratFloor ((125:ℚ) / 60)) ++ " min (driving)") ∧
      ((3600:ℚ) ≤ 125 → formatDurationText 125 =
          toString (Int.fdiv (ratFloor ((125:ℚ) / 60)) 60) ++ " hr " ++
          toString (Int.fmod (ratFloor ((125:ℚ) / 60)) 60) ++ " min (driving)") ∧
      ratFloor ((125:ℚ) / 60) = ⌊(125:ℚ) / 60⌋ ∧
      formatDurationText 125 = "2 min (driving)" ∧
      formatDurationText 3900 = "1 hr 5 min (driving)") :=
  ⟨by norm_num, C7_duration_formatting 125 (by norm_num)⟩

/-- Claim C8: for a distance in meters the travel-distance text is the
kilometre value rendered with exactly two decimal places followed by
" km (driving)"; in particular 4200 m renders as "4.20 km (driving)". -/
theorem C8_distance_formatting (m : ℚ) (h : 0 ≤ m) :
    formatDistanceText m = formatFixed2 (m / 1000) ++ " km (driving)" ∧
    (∃ fracDigits : ℕ, fracDigits < 100 ∧
        formatFixed2 (m / 1000) =
          toString ((roundHalfEven (m / 1000 * 100)).toNat / 100) ++ "." ++ pad2 fracDigits ∧
        (pad2 fracDigits).length = 2) ∧
    formatDistanceText 4200 = "4.20 km (driving)" := by
  have hn : 0 ≤ roundHalfEven (m / 1000 * 100) := roundHalfEven_nonneg _ (by positivity)
  have e4200 : formatDistanceText 4200 = "4.20 km (driving)" := by
    have hq : ((4200:ℚ) / 1000 * 100) = 420 := by norm_num
    have hrf : ratFloor (420:ℚ) = 420 := by
      rw [ratFloor_eq_floor]; norm_num
    have hr : roundHalfEven ((4200:ℚ) / 1000 * 100) = 420 := by
      rw [hq]
      simp only [roundHalfEven, hrf]
      rw [if_pos (by norm_num)]
    simp only [formatDistanceText, formatFixed2, hr]
    decide
  refine ⟨rfl, ?_, e4200⟩
  refine ⟨(roundHalfEven (m / 1000 * 100)).toNat % 100, Nat.mod_lt _ (by norm_num), ?_,
    pad2_length _ (Nat.mod_lt _ (by norm_num))⟩
  simp only [formatFixed2, if_neg (by omega : ¬ roundHalfEven (m / 1000 * 100) < 0)]

/-- Claim C8 witness: the distance-formatting theorem instantiated at 4200 m. -/
theorem C8_distance_formatting_witness :
    (0:ℚ) ≤ 4200 ∧
    (formatDistanceText 4200 = formatFixed2 ((4200:ℚ) / 1000) ++ " km (driving)" ∧
      (∃ fracDigits : ℕ, fracDigits < 100 ∧
          formatFixed2 ((4200:ℚ) / 1000) =
            toString ((roundHalfEven ((4200:ℚ) / 1000 * 100)).toNat / 100) ++ "." ++
              pad2 fracDigits ∧
          (pad2 fracDigits).length = 2) ∧
      formatDistanceText 4200 = "4.20 km (driving)") :=
  ⟨by norm_num, C8_distance_formatting 4200 (by norm_num)⟩

/-! ## Route enrichment (app.py lines 159..247) -/

/-- One route of the directions response JSON: `duration` in seconds,
`distance` in meters, `geometry` an encoded polyline; every field may be
missing (`route.get(...)`). -/
structure Route where
  duration : Option ℚ
  distance : Option ℚ
  geometry : Option String
deriving DecidableEq

/-- The JSON body of a directions response: a `routes` list (absent or
empty list are both modelled as `[]`), an optional `code`, an optional
`message`. -/
structure DirectionsResult where
  routes : List Route
  code : Option String
  message : Option String
deriving DecidableEq

/-- Outcome of one call to the directions client, as the handler
distinguishes them: the call returned a body (`success`, where `none`
models a falsy body), the client raised `mapbox.errors.MapboxAPIError`,
or it raised some other exception; the error payloads carry the rendered
exception message. -/
inductive CallResult where
  | success (directions_result : Option DirectionsResult)
  | mapboxApiError (msg : String)
  | otherError (msg : String)
deriving DecidableEq

/-- One entry of `found_locations` passed to the template. -/
structure SearchResult where
  lat : ℚ
  lon : ℚ
  disease_info : String
  travel_time_text : String
  travel_distance_text : String
  route_geometry_encoded : Option String
  name : Option String := none
  details : Option String := none
deriving DecidableEq

/-- The body of the per-match enrichment loop (app.py lines 164..247):
start from the "Calculating..." placeholders, then overwrite them
according to the outcome of the directions call.  The branch structure
mirrors the code: a truthy body with a non-empty `routes` list formats
duration/distance ("Time N/A" / "Distance N/A" when a field is missing)
and stores the geometry; otherwise a body whose `code` differs from
"Ok" (including a missing `code`) yields "API Error: <code>"; otherwise
"Route not found"; a raised `MapboxAPIError` yields "API Error: <e>";
any other exception yields "Error: <e>". -/
def enrichRow (row : LocationRecord) (call : CallResult) : SearchResult :=
  let location_info : SearchResult :=
    { lat := row.LAT, lon := row.LON, disease_info := row.Disease,
      travel_time_text := "Calculating...",
      travel_distance_text := "Calculating...",
      route_geometry_encoded := none,
      name := row.Name, details := row.Details }
  match call with
  | CallResult.success directions_result =>
    match directions_result with
    | some dr =>
      match dr.routes with
      | route :: _ =>
        { location_info with
          travel_time_text :=
            match route.duration with
            | some d => formatDurationText d
            | none => "Time N/A",
          travel_distance_text :=
            match route.distance with
            | some dist => formatDistanceText dist
            | none => "Distance N/A",
          route_geometry_encoded := route.geometry }
      | [] =>
        if dr.code ≠ some "Ok" then
          { location_info with
            travel_time_text := "API Error: " ++ dr.code.getD "Unknown API Error",
            travel_distance_text := "API Error: " ++ dr.code.getD "Unknown API Error" }
        else
          { location_info with
            travel_time_text := "Route not found",
            travel_distance_text := "Route not found" }
    | none =>
        { location_info with
          travel_time_text := "Route not found",
          travel_distance_text := "Route not found" }
  | CallResult.mapboxApiError e =>
      { location_info with
        travel_time_text := "API Error: " ++ e,
        travel_distance_text := "API Error: " ++ e }
  | CallResult.otherError e =>
      { location_info with
        travel_time_text := "Error: " ++ e,
        travel_distance_text := "Error: " ++ e }

/-- The without-origin branch (app.py lines 249..264): no directions call,
policy placeholder text, no geometry. -/
def plainRow (row : LocationRecord) : SearchResult :=
  { lat := row.LAT, lon := row.LON, disease_info := row.Disease,
    travel_time_text := "Requires Location",
    travel_distance_text := "Requires Location",
    route_geometry_encoded := none,
    name := row.Name, details := row.Details }

/-- The enrichment loop with an origin: one sequential directions call per
row, the oracle giving the outcome of the call for each row index. -/
def routeRows (oracle : ℕ → CallResult) : ℕ → List LocationRecord → List SearchResult
  | _, [] => []
  | i, row :: rest => enrichRow row (oracle i) :: routeRows oracle (i + 1) rest

/-- A call outcome that raised (transport or API-level fault). -/
def isFault : CallResult → Bool
  | CallResult.mapboxApiError _ => true
  | CallResult.otherError _ => true
  | CallResult.success _ => false

/-- The error placeholder text the handler writes for a raised fault. -/
def faultText : CallResult → Option String
  | CallResult.mapboxApiError e => some ("API Error: " ++ e)
  | CallResult.otherError e => some ("Error: " ++ e)
  | CallResult.success _ => none

/-- The computed travel-time text of a call that returned a route with a
duration. -/
def computedTimeText : CallResult → Option String
  | CallResult.success (some dr) =>
    match dr.routes with
    | route :: _ => route.duration.map formatDurationText
    | [] => none
  | _ => none

/-- The computed travel-distance text of a call that returned a route with
a distance. -/
def computedDistanceText : CallResult → Option String
  | CallResult.success (some dr) =>
    match dr.routes with
    | route :: _ => route.distance.map formatDistanceText
    | [] => none
  | _ => none

/-! ## Lemmas about the enrichment loop -/

lemma routeRows_length (oracle : ℕ → CallResult) (i : ℕ) (ms : List LocationRecord) :
    (routeRows oracle i ms).length = ms.length := by
  induction ms generalizing i with
  | nil => rfl
  | cons r rest ih => simp [routeRows, ih]

lemma routeRows_getElem? (oracle : ℕ → CallResult) (i j : ℕ) (ms : List LocationRecord) :
    (routeRows oracle i ms)[j]? = ms[j]?.map fun r => enrichRow r (oracle (i + j)) := by
  induction ms generalizing i j with
  | nil => simp [routeRows]
  | cons r rest ih =>
    cases j with
    | zero => simp [routeRows]
    | succ j =>
      simp only [routeRows, List.getElem?_cons_succ]
      rw [ih (i + 1) j, show i + 1 + j = i + (j + 1) by omega]

lemma enrichRow_fault (row : LocationRecord) (c : CallResult) (h : isFault c = true) :
    some (enrichRow row c).travel_time_text = faultText c ∧
    some (enrichRow row c).travel_distance_text = faultText c := by
  cases c with
  | success dr => simp [isFault] at h
  | mapboxApiError e => exact ⟨rfl, rfl⟩
  | otherError e => exact ⟨rfl, rfl⟩

lemma enrichRow_time_of_computed (row : LocationRecord) (c : CallResult) (s : String)
    (h : computedTimeText c = some s) :
    (enrichRow row c).travel_time_text = s := by
  cases c with
  | mapboxApiError e => simp [computedTimeText] at h
  | otherError e => simp [computedTimeText] at h
  | success dr? =>
    cases dr? with
    | none => simp [computedTimeText] at h
    | some dr =>
      rcases hr : dr.routes with _ | ⟨route, rest⟩
      · simp [computedTimeText, hr] at h
      · simp only [computedTimeText, hr] at h
        rcases Option.map_eq_some'.mp h with ⟨d, hd, hs⟩
        simp only [enrichRow, hr, hd]
        exact hs

lemma enrichRow_distance_of_computed (row : LocationRecord) (c : CallResult) (s : String)
    (h : computedDistanceText c = some s) :
    (enrichRow row c).travel_distance_text = s := by
  cases c with
  | mapboxApiError e => simp [computedDistanceText] at h
  | otherError e => simp [computedDistanceText] at h
  | success dr? =>
    cases dr? with
    | none => simp [computedDistanceText] at h
    | some dr =>
      rcases hr : dr.routes with _ | ⟨route, rest⟩
      · simp [computedDistanceText, hr] at h
      · simp only [computedDistanceText, hr] at h
        rcases Option.map_eq_some'.mp h with ⟨d, hd, hs⟩
        simp only [enrichRow, hr, hd]
        exact hs

lemma enrichRow_apiCode (row : LocationRecord) (dr : DirectionsResult)
    (hnr : dr.routes = []) (hcode : dr.code ≠ some "Ok") :
    (enrichRow row (CallResult.success (some dr))).travel_time_text =
        "API Error: " ++ dr.code.getD "Unknown API Error" ∧
    (enrichRow row (CallResult.success (some dr))).travel_distance_text =
        "API Error: " ++ dr.code.getD "Unknown API Error" := by
  refine ⟨?_, ?_⟩ <;> simp [enrichRow, hnr, if_pos hcode]

lemma enrichRow_noRoute (row : LocationRecord) (dr : DirectionsResult)
    (hnr : dr.routes = []) (hcode : dr.code = some "Ok") :
    (enrichRow row (CallResult.success (some dr))).travel_time_text = "Route not found" ∧
    (enrichRow row (CallResult.success (some dr))).travel_distance_text = "Route not found" := by
  have hcond : ¬ dr.code ≠ some "Ok" := not_not_intro hcode
  refine ⟨?_, ?_⟩ <;> simp [enrichRow, hnr, if_neg hcond]

/-! ## Helper facts: no assigned text equals the initial placeholder -/

lemma last_calculating : ("Calculating..." : String).data.getLast? = some '.' := rfl

lemma head_calculating : ("Calculating..." : String).data.head? = some 'C' := rfl

lemma append_ne_calculating_of_last (a b : String) (h : b.data.getLast? = some ')') :
    a ++ b ≠ "Calculating..." := by
  intro he
  have h2 : (a ++ b).data.getLast? = ("Calculating..." : String).data.getLast? := by rw [he]
  rw [String.data_append, List.getLast?_append, h, last_calculating] at h2
  simp at h2

lemma append_ne_calculating_of_head (a b : String) (h : a.data.head? = some 'A' ∨ a.data.head? = some 'E') :
    a ++ b ≠ "Calculating..." := by
  intro he
  have h2 : (a ++ b).data.head? = ("Calculating..." : String).data.head? := by rw [he]
  rw [String.data_append, head_calculating] at h2
  rcases h with h | h <;> rcases ha : a.data with _ | ⟨c, rest⟩ <;>
    rw [ha] at h h2 <;> simp at h h2 <;> simp [h] at h2

lemma formatDurationText_ne_calculating (d : ℚ) :
    formatDurationText d ≠ "Calculating..." := by
  simp only [formatDurationText]
  split_ifs <;> exact append_ne_calculating_of_last _ " min (driving)" rfl

lemma formatDistanceText_ne_calculating (m : ℚ) :
    formatDistanceText m ≠ "Calculating..." := by
  exact append_ne_calculating_of_last _ " km (driving)" rfl

lemma enrichRow_ne_calculating (row : LocationRecord) (c : CallResult) :
    (enrichRow row c).travel_time_text ≠ "Calculating..." ∧
    (enrichRow row c).travel_distance_text ≠ "Calculating..." := by
  cases c with
  | mapboxApiError e =>
    constructor <;> exact append_ne_calculating_of_head "API Error: " e (Or.inl rfl)
  | otherError e =>
    constructor <;> exact append_ne_calculating_of_head "Error: " e (Or.inr rfl)
  | success dr? =>
    cases dr? with
    | none =>
      exact ⟨(by decide : ("Route not found" : String) ≠ "Calculating..."),
        (by decide : ("Route not found" : String) ≠ "Calculating...")⟩
    | some dr =>
      rcases hr : dr.routes with _ | ⟨route, rest⟩
      · by_cases hc : dr.code ≠ some "Ok"
        · have h := enrichRow_apiCode row dr hr hc
          rw [h.1, h.2]
          constructor <;>
            exact append_ne_calculating_of_head "API Error: " _ (Or.inl rfl)
        · have h := enrichRow_noRoute row dr hr (not_not.mp hc)
          rw [h.1, h.2]
          exact ⟨by decide, by decide⟩
      · constructor
        · rcases hd : route.duration with _ | d
          · simp only [enrichRow, hr, hd]
            decide
          · simp only [enrichRow, hr, hd]
            exact formatDurationText_ne_calculating d
        · rcases hd : route.distance with _ | dist
          · simp only [enrichRow, hr, hd]
            decide
          · simp only [enrichRow, hr, hd]
            exact formatDistanceText_ne_calculating dist

/-- Claim C10: the initial "Calculating..." placeholder never escapes: every
result row produced by the with-origin enrichment loop has its
travel_time_text and travel_distance_text overwritten before the row is
appended, whatever the outcome of the directions call. -/
theorem C10_no_calculating_escapes (oracle : ℕ → CallResult) (i : ℕ)
    (ms : List LocationRecord) :
    ∀ s ∈ routeRows oracle i ms,
      s.travel_time_text ≠ "Calculating..." ∧
      s.travel_distance_text ≠ "Calculating..." := by
  induction ms generalizing i with
  | nil => intro s hs; simp [routeRows] at hs
  | cons r rest ih =>
    intro s hs
    rw [routeRows] at hs
    rcases List.mem_cons.mp hs with h | h
    · rw [h]
      exact enrichRow_ne_calculating r (oracle i)
    · exact ih (i + 1) s h

/-- Claim C10 witness: a concrete enriched row (no-body response) carries
no "Calculating..." text. -/
theorem C10_no_calculating_escapes_witness :
    (enrichRow { LAT := 0, LON := 0, Disease := "flu" }
        (CallResult.success none)).travel_time_text ≠ "Calculating..." ∧
    (enrichRow { LAT := 0, LON := 0, Disease := "flu" }
        (CallResult.success none)).travel_distance_text ≠ "Calculating..." :=
  C10_no_calculating_escapes (fun _ => CallResult.success none) 0
    [{ LAT := 0, LON := 0, Disease := "flu" }]
    (enrichRow { LAT := 0, LON := 0, Disease := "flu" } (CallResult.success none))
    (by rw [routeRows]; exact List.mem_cons_self _ _)

/-- Claim C1: per-row failure isolation.  If the directions call raises for
exactly one row index `k` and yields a route with duration and distance for
every other index, then the loop still produces one result per match
(whatever the oracle does), row `k` carries the caught-exception error
placeholder in both text fields, and every other row carries its computed
time/distance text. -/
theorem C1_per_row_isolation (ms : List LocationRecord) (oracle : ℕ → CallResult)
    (k : ℕ) (hk : k < ms.length) (hfault : isFault (oracle k) = true)
    (hrest : ∀ j, j < ms.length → j ≠ k →
        (computedTimeText (oracle j)).isSome = true ∧
        (computedDistanceText (oracle j)).isSome = true) :
    (∀ anyOracle : ℕ → CallResult, (routeRows anyOracle 0 ms).length = ms.length) ∧
    (routeRows oracle 0 ms)[k]?.map SearchResult.travel_time_text = faultText (oracle k) ∧
    (routeRows oracle 0 ms)[k]?.map SearchResult.travel_distance_text = faultText (oracle k) ∧
    (∀ j, j < ms.length → j ≠ k →
      (routeRows oracle 0 ms)[j]?.map SearchResult.travel_time_text
          = computedTimeText (oracle j) ∧
      (routeRows oracle 0 ms)[j]?.map SearchResult.travel_distance_text
          = computedDistanceText (oracle j)) := by
  refine ⟨fun anyOracle => routeRows_length anyOracle 0 ms, ?_, ?_, ?_⟩
  · rw [routeRows_getElem?, List.getElem?_eq_getElem hk]
    simp only [Option.map_some', Nat.zero_add]
    exact (enrichRow_fault _ _ hfault).1
  · rw [routeRows_getElem?, List.getElem?_eq_getElem hk]
    simp only [Option.map_some', Nat.zero_add]
    exact (enrichRow_fault _ _ hfault).2
  · intro j hj hjk
    obtain ⟨ht, hd⟩ := hrest j hj hjk
    obtain ⟨st, hst⟩ := Option.isSome_iff_exists.mp ht
    obtain ⟨sd, hsd⟩ := Option.isSome_iff_exists.mp hd
    constructor
    · rw [routeRows_getElem?, List.getElem?_eq_getElem hj]
      simp only [Option.map_some', Nat.zero_add]
      rw [hst, enrichRow_time_of_computed _ _ _ hst]
    · rw [routeRows_getElem?, List.getElem?_eq_getElem hj]
      simp only [Option.map_some', Nat.zero_add]
      rw [hsd, enrichRow_distance_of_computed _ _ _ hsd]

/-- Two concrete matches for the C1 witness. -/
def isolationRowA : LocationRecord :=
  { LAT := 0, LON := 0, Disease := "flu" }

/-- Second concrete match for the C1 witness. -/
def isolationRowB : LocationRecord :=
  { LAT := 1, LON := 1, Disease := "flu" }

/-- A C1-witness oracle: the call raises for row 0 only and returns a full
route for every other row. -/
def isolationOracle : ℕ → CallResult := fun n =>
  if n = 0 then CallResult.mapboxApiError "boom"
  else CallResult.success (some
    { routes := [{ duration := some 120, distance := some 4200, geometry := some "geom" }],
      code := some "Ok", message := none })

/-- Claim C1 witness: the isolation theorem instantiated at two matches
whose call fails exactly on row 0. -/
theorem C1_per_row_isolation_witness :
    0 < [isolationRowA, isolationRowB].length ∧
    ((∀ anyOracle : ℕ → CallResult,
        (routeRows anyOracle 0 [isolationRowA, isolationRowB]).length
            = [isolationRowA, isolationRowB].length) ∧
      (routeRows isolationOracle 0 [isolationRowA, isolationRowB])[0]?.map
          SearchResult.travel_time_text = faultText (isolationOracle 0) ∧
      (routeRows isolationOracle 0 [isolationRowA, isolationRowB])[0]?.map
          SearchResult.travel_distance_text = faultText (isolationOracle 0) ∧
      (∀ j, j < [isolationRowA, isolationRowB].length → j ≠ 0 →
        (routeRows isolationOracle 0 [isolationRowA, isolationRowB])[j]?.map
            SearchResult.travel_time_text = computedTimeText (isolationOracle j) ∧
        (routeRows isolationOracle 0 [isolationRowA, isolationRowB])[j]?.map
            SearchResult.travel_distance_text = computedDistanceText (isolationOracle j))) :=
  ⟨by decide,
    C1_per_row_isolation [isolationRowA, isolationRowB] isolationOracle 0
      (by decide) (by decide)
      (by
        intro j hj hjk
        have hj2 : j < 2 := by simpa using hj
        interval_cases j
        · exact absurd rfl hjk
        · exact ⟨rfl, rfl⟩)⟩

/-- Claim C6: with an origin present, a response body with an empty routes
list and a non-success code sets both text fields to "API Error: <code>"
(a missing code reads as "Unknown API Error"); an empty routes list with
code "Ok" sets both fields to "Route not found"; in both cases the loop
appends the row and continues — it always returns one result per match. -/
theorem C6_api_code_and_no_route (r : LocationRecord) (dr : DirectionsResult)
    (hnr : dr.routes = []) :
    (dr.code ≠ some "Ok" →
      (enrichRow r (CallResult.success (some dr))).travel_time_text =
          "API Error: " ++ dr.code.getD "Unknown API Error" ∧
      (enrichRow r (CallResult.success (some dr))).travel_distance_text =
          "API Error: " ++ dr.code.getD "Unknown API Error") ∧
    (dr.code = some "Ok" →
      (enrichRow r (CallResult.success (some dr))).travel_time_text = "Route not found" ∧
      (enrichRow r (CallResult.success (some dr))).travel_distance_text = "Route not found") ∧
    (∀ oracle i ms, (routeRows oracle i ms).length = ms.length) :=
  ⟨fun hc => enrichRow_apiCode r dr hnr hc,
   fun hc => enrichRow_noRoute r dr hnr hc,
   fun oracle i ms => routeRows_length oracle i ms⟩

/-- Claim C6 witness: the no-route/non-success theorem instantiated at a
response body with empty routes and code "NoSegment". -/
theorem C6_api_code_and_no_route_witness :
    ({ routes := [], code := some "NoSegment", message := none } : DirectionsResult).routes
        = [] ∧
    (((({ routes := [], code := some "NoSegment", message := none } : DirectionsResult).code
          ≠ some "Ok") →
      (enrichRow isolationRowA (CallResult.success (some
          { routes := [], code := some "NoSegment", message := none }))).travel_time_text =
        "API Error: " ++ (({ routes := [], code := some "NoSegment", message := none } :
            DirectionsResult).code.getD "Unknown API Error") ∧
      (enrichRow isolationRowA (CallResult.success (some
          { routes := [], code := some "NoSegment", message := none }))).travel_distance_text =
        "API Error: " ++ (({ routes := [], code := some "NoSegment", message := none } :
            DirectionsResult).code.getD "Unknown API Error")) ∧
    ((({ routes := [], code := some "NoSegment", message := none } : DirectionsResult).code
          = some "Ok") →
      (enrichRow isolationRowA (CallResult.success (some
          { routes := [], code := some "NoSegment", message := none }))).travel_time_text =
        "Route not found" ∧
      (enrichRow isolationRowA (CallResult.success (some
          { routes := [], code := some "NoSegment", message := none }))).travel_distance_text =
        "Route not found") ∧
    (∀ oracle i ms, (routeRows oracle i ms).length = ms.length)) :=
  ⟨rfl, C6_api_code_and_no_route isolationRowA
      { routes := [], code := some "NoSegment", message := none } rfl⟩

/-! ## View composition (app.py lines 107..122, 133..147, 267..277) -/

/-- Arithmetic mean of a list of rationals (the pandas / Python mean the
handler computes over coordinate columns). -/
def meanQ (xs : List ℚ) : ℚ :=
  xs.sum / (xs.length : ℚ)

/-- The hard-coded fallback center `[77.0267093, 11.0285484]` (app.py line
110), as exact rationals. -/
def defaultMapCenter : List ℚ :=
  [770267093 / 10000000, 110285484 / 10000000]

/-- Map center/zoom selection of `index`, composed exactly as the handler
assigns `map_center` / `map_zoom`: start from the dataset-wide mean (zoom
10) or the fixed default (zoom 12) when the dataset is empty; a valid pair
of user coordinates overwrites it with `[user_lon, user_lat]` (zoom 13);
and after the search, a non-empty found list recenters on the mean of the
found coordinates (zoom 13) exactly when at least one user coordinate is
missing. -/
def mapCenterZoom (dataset : List LocationRecord) (user_lat user_lon : Option ℚ)
    (found_locations : List SearchResult) : List ℚ × ℕ :=
  let initial :=
    if dataset.isEmpty then (defaultMapCenter, 12)
    else ([meanQ (dataset.map LocationRecord.LON), meanQ (dataset.map LocationRecord.LAT)], 10)
  let withUser :=
    match user_lat, user_lon with
    | some la, some lo => ([lo, la], 13)
    | _, _ => initial
  if found_locations.isEmpty = false ∧ (user_lat = none ∨ user_lon = none) then
    ([meanQ (found_locations.map SearchResult.lon),
      meanQ (found_locations.map SearchResult.lat)], 13)
  else withUser

/-- Claim C3: map-center priority order.  A valid user coordinate pair wins
regardless of the result set and centers at `[lon, lat]`; otherwise a
non-empty result list centers at the mean of the found coordinates;
otherwise a non-empty dataset centers at the dataset-wide mean; otherwise
the fixed default center and zoom are used.  The given examples: user
coordinates (12.0, 77.5) give center [77.5, 12.0]; results at (10,20) and
(12,22) with no user location give center [21.0, 11.0]. -/
theorem C3_map_center_priority (dataset : List LocationRecord)
    (found : List SearchResult) (la lo : ℚ) (ula ulo : Option ℚ)
    (hnv : ula = none ∨ ulo = none) :
    (mapCenterZoom dataset (some la) (some lo) found).1 = [lo, la] ∧
    (found ≠ [] → (mapCenterZoom dataset ula ulo found).1 =
        [meanQ (found.map SearchResult.lon), meanQ (found.map SearchResult.lat)]) ∧
    (found = [] → dataset ≠ [] → (mapCenterZoom dataset ula ulo found).1 =
        [meanQ (dataset.map LocationRecord.LON), meanQ (dataset.map LocationRecord.LAT)]) ∧
    (found = [] → dataset = [] →
        mapCenterZoom dataset ula ulo found = (defaultMapCenter, 12)) ∧
    (mapCenterZoom dataset (some 12) (some (155/2)) found).1 = [155/2, 12] ∧
    (mapCenterZoom dataset none none
        [{ lat := 10, lon := 20, disease_info := "", travel_time_text := "",
           travel_distance_text := "", route_geometry_encoded := none },
         { lat := 12, lon := 22, disease_info := "", travel_time_text := "",
           travel_distance_text := "", route_geometry_encoded := none }]).1 = [21, 11] := by
  refine ⟨?_, ?_, ?_, ?_, ?_, ?_⟩
  · simp [mapCenterZoom]
  · intro hf
    rcases hnv with h | h <;> subst h <;>
      simp [mapCenterZoom, List.isEmpty_iff, hf]
  · intro hf hd
    subst hf
    rcases hnv with h | h <;> subst h
    · cases ulo <;> simp [mapCenterZoom, List.isEmpty_iff, hd]
    · cases ula <;> simp [mapCenterZoom, List.isEmpty_iff, hd]
  · intro hf hd
    subst hf
    subst hd
    rcases hnv with h | h <;> subst h
    · cases ulo <;> simp [mapCenterZoom, List.isEmpty_iff]
    · cases ula <;> simp [mapCenterZoom, List.isEmpty_iff]
  · simp [mapCenterZoom]
  · simp only [mapCenterZoom, List.isEmpty_cons, List.map_cons, List.map_nil]
    norm_num [meanQ]

/-- Claim C3 witness: the priority theorem instantiated with empty dataset
and empty result list and absent user coordinates. -/
theorem C3_map_center_priority_witness :
    (((none : Option ℚ) = none) ∨ ((none : Option ℚ) = none)) ∧
    ((mapCenterZoom [] (some 1) (some 2) []).1 = [2, 1] ∧
      (([] : List SearchResult) ≠ [] → (mapCenterZoom [] none none []).1 =
          [meanQ (([] : List SearchResult).map SearchResult.lon),
           meanQ (([] : List SearchResult).map SearchResult.lat)]) ∧
      (([] : List SearchResult) = [] → ([] : List LocationRecord) ≠ [] →
        (mapCenterZoom [] none none []).1 =
          [meanQ (([] : List LocationRecord).map LocationRecord.LON),
           meanQ (([] : List LocationRecord).map LocationRecord.LAT)]) ∧
      (([] : List SearchResult) = [] → ([] : List LocationRecord) = [] →
        mapCenterZoom [] none none [] = (defaultMapCenter, 12)) ∧
      (mapCenterZoom [] (some 12) (some (155/2)) []).1 = [155/2, 12] ∧
      (mapCenterZoom [] none none
          [{ lat := 10, lon := 20, disease_info := "", travel_time_text := "",
             travel_distance_text := "", route_geometry_encoded := none },
           { lat := 12, lon := 22, disease_info := "", travel_time_text := "",
             travel_distance_text := "", route_geometry_encoded := none }]).1 = [21, 11]) :=
  ⟨Or.inl rfl, C3_map_center_priority [] [] 1 2 none none (Or.inl rfl)⟩

/-! ## The POST request handler (app.py lines 125..289) -/

/-- The POST form fields the handler reads: `disease_name`, `user_lat`,
`user_lon` (each absent when not submitted). -/
structure RequestForm where
  disease_name : Option String
  user_lat : Option String
  user_lon : Option String
deriving DecidableEq

/-- What `index` passes to the template. -/
structure ViewState where
  locations : List SearchResult
  search_disease : String
  map_center : List ℚ
  map_zoom : ℕ
  user_lat : Option ℚ
  user_lon : Option ℚ

/-- The user-coordinate parsing of `index` (app.py lines 130..147),
parameterised by a model `parseFloat` of Python `float` parsing
(`none` = `ValueError`).  `user_lat = float(s) if s else None` treats a
missing or empty field as `None`; if either conversion raises, the
`except ValueError` handler sets both coordinates to `None`. -/
def parseStep (parseFloat : String → Option ℚ) : Option String → Option (Option ℚ)
  | none => some none
  | some s => if s.isEmpty then some none else (parseFloat s).map some

/-- Combination of the two `float(...) if ... else None` conversions inside
the shared `try` block: evaluate the latitude first; a raised conversion
(outer `none` of `parseStep`) short-circuits and yields `(None, None)`. -/
def parseUserLoc (parseFloat : String → Option ℚ)
    (user_lat_str user_lon_str : Option String) : Option ℚ × Option ℚ :=
  match parseStep parseFloat user_lat_str with
  | none => (none, none)
  | some user_lat =>
    match parseStep parseFloat user_lon_str with
    | none => (none, none)
    | some user_lon => (user_lat, user_lon)

/-- The whole POST branch of `index`: strip the search term, parse the
user coordinates, filter the dataset, enrich the matches (the directions
loop when both coordinates are present, otherwise the placeholder rows),
and compose the map center/zoom. -/
def indexPost (parseFloat : String → Option ℚ) (oracle : ℕ → CallResult)
    (dataset : List LocationRecord) (form : RequestForm) : ViewState :=
  let search_disease := stripString (form.disease_name.getD "")
  let user := parseUserLoc parseFloat form.user_lat form.user_lon
  let filtered := filterRecords dataset search_disease
  let found_locations :=
    if user.1.isSome = true ∧ user.2.isSome = true then routeRows oracle 0 filtered
    else filtered.map plainRow
  let cz := mapCenterZoom dataset user.1 user.2 found_locations
  { locations := found_locations,
    search_disease := search_disease,
    map_center := cz.1,
    map_zoom := cz.2,
    user_lat := user.1,
    user_lon := user.2 }

/-- Claim C2: enrichment without an origin is pure.  When the parsed user
coordinates are absent or invalid (at least one is `None`), the response
does not depend on the directions oracle at all — no external call is
made — and every result row carries the "Requires Location" placeholder
in both text fields and no route geometry. -/
theorem C2_enrichment_without_origin (parseFloat : String → Option ℚ)
    (oracle oracle2 : ℕ → CallResult) (dataset : List LocationRecord) (form : RequestForm)
    (h : (parseUserLoc parseFloat form.user_lat form.user_lon).1 = none ∨
         (parseUserLoc parseFloat form.user_lat form.user_lon).2 = none) :
    indexPost parseFloat oracle dataset form = indexPost parseFloat oracle2 dataset form ∧
    ∀ s ∈ (indexPost parseFloat oracle dataset form).locations,
      s.travel_time_text = "Requires Location" ∧
      s.travel_distance_text = "Requires Location" ∧
      s.route_geometry_encoded = none := by
  have hcond : ¬ ((parseUserLoc parseFloat form.user_lat form.user_lon).1.isSome = true ∧
      (parseUserLoc parseFloat form.user_lat form.user_lon).2.isSome = true) := by
    rcases h with h1 | h1 <;> simp [h1]
  constructor
  · simp only [indexPost, if_neg hcond]
  · intro s hs
    simp only [indexPost, if_neg hcond] at hs
    rcases List.mem_map.mp hs with ⟨r, hr, rfl⟩
    exact ⟨rfl, rfl, rfl⟩

/-- A parse model for the C2 witness: every string fails to parse. -/
def noLocParse : String → Option ℚ := fun _ => none

/-- The form of the C2 witness: a search term and a non-numeric latitude. -/
def noLocForm : RequestForm :=
  { disease_name := some "flu", user_lat := some "abc", user_lon := none }

/-- The dataset of the C2 witness. -/
def noLocRecords : List LocationRecord :=
  [{ LAT := 0, LON := 0, Disease := "flu" }]

/-- First oracle of the C2 witness (every call would raise). -/
def noLocOracleA : ℕ → CallResult := fun _ => CallResult.otherError "net"

/-- Second oracle of the C2 witness (every call would return a falsy body). -/
def noLocOracleB : ℕ → CallResult := fun _ => CallResult.success none

/-- Claim C2 witness: the without-origin theorem instantiated at a form
whose latitude fails to parse, with two different oracles. -/
theorem C2_enrichment_without_origin_witness :
    ((parseUserLoc noLocParse noLocForm.user_lat noLocForm.user_lon).1 = none ∨
      (parseUserLoc noLocParse noLocForm.user_lat noLocForm.user_lon).2 = none) ∧
    (indexPost noLocParse noLocOracleA noLocRecords noLocForm =
        indexPost noLocParse noLocOracleB noLocRecords noLocForm ∧
      ∀ s ∈ (indexPost noLocParse noLocOracleA noLocRecords noLocForm).locations,
        s.travel_time_text = "Requires Location" ∧
        s.travel_distance_text = "Requires Location" ∧
        s.route_geometry_encoded = none) :=
  ⟨Or.inl rfl, C2_enrichment_without_origin noLocParse noLocOracleA noLocOracleB
      noLocRecords noLocForm (Or.inl rfl)⟩

/-- Claim C4: for a non-empty record collection, an empty or
whitespace-only search term yields an empty result list — the filter
returns no rows and the composed response carries no locations — rather
than the entire dataset. -/
theorem C4_empty_term_no_results (records : List LocationRecord) (t : String)
    (hne : records ≠ []) (hws : t.data.all isSpaceChar = true) :
    filterRecords records t = [] ∧
    ∀ parseFloat oracle form, form.disease_name = some t →
      (indexPost parseFloat oracle records form).locations = [] := by
  have hstrip : stripChars t.data = [] := stripChars_eq_nil t.data hws
  have hfil : ∀ (recs : List LocationRecord) (u : String), stripChars u.data = [] →
      filterRecords recs u = [] := by
    intro recs u hu
    simp [filterRecords, hu, lowerList]
  constructor
  · exact hfil records t hstrip
  · intro parseFloat oracle form hform
    have hsdata : stripChars (stripString t).data = [] := by
      rw [stripString]
      show stripChars (stripChars t.data) = []
      simp only [hstrip]
      rfl
    have h2 := hfil records (stripString t) hsdata
    simp only [indexPost, hform, Option.getD_some, h2]
    split <;> simp [routeRows]

/-- Claim C4 witness: a one-row collection with a single-space search term. -/
theorem C4_empty_term_no_results_witness :
    ([{ LAT := 0, LON := 0, Disease := "flu" }] : List LocationRecord) ≠ [] ∧
    (" " : String).data.all isSpaceChar = true ∧
    (filterRecords [{ LAT := 0, LON := 0, Disease := "flu" }] " " = [] ∧
      ∀ parseFloat oracle form, form.disease_name = some " " →
        (indexPost parseFloat oracle [{ LAT := 0, LON := 0, Disease := "flu" }] form).locations
            = []) :=
  ⟨List.cons_ne_nil _ _, by decide,
    C4_empty_term_no_results [{ LAT := 0, LON := 0, Disease := "flu" }] " "
      (List.cons_ne_nil _ _) (by decide)⟩

/-! ## Claim C5: the filter is case-insensitive, but matches the stripped term -/

/-- Claim C5 counterexample: with the term " flu" (leading whitespace) the
filter returns the record whose category is "flu", yet "flu" does not
contain " flu" even ignoring case — the filter matches the stripped term,
not the raw term, so "every returned record's category contains t ignoring
case" fails for t = " flu". -/
theorem C5_counterexample :
    ∃ r, r ∈ filterRecords [{ LAT := 0, LON := 0, Disease := "flu" }] " flu" ∧
      containsIgnoreCase r.Disease " flu" = false := by
  refine ⟨{ LAT := 0, LON := 0, Disease := "flu" }, ?_, by decide⟩
  simp only [filterRecords]
  rw [if_neg (by decide : ¬ ((lowerList (stripChars (" flu" : String).data)).isEmpty = true))]
  refine List.mem_filter.mpr ⟨List.mem_singleton.mpr rfl, by decide⟩

/-- Claim C5 (amended): the query filter is case-insensitive over the
category field: `filter(R, t) = filter(R, lowercase(t))`; every returned
record's category contains the whitespace-stripped term ignoring case;
and the returned records appear in the stable order of the underlying
collection (the filtered list is a sublist of it). -/
theorem C5_case_insensitive_filter (records : List LocationRecord) (t : String) :
    filterRecords records t = filterRecords records (lowerString t) ∧
    (∀ r ∈ filterRecords records t,
        containsIgnoreCase r.Disease (stripString t) = true) ∧
    (filterRecords records t).Sublist records := by
  have hkey : lowerList (stripChars (lowerString t).data) = lowerList (stripChars t.data) := by
    rw [show (lowerString t).data = lowerList t.data from rfl, stripChars_lowerList,
      lowerList_lowerList]
  refine ⟨?_, ?_, ?_⟩
  · simp only [filterRecords, hkey]
  · intro r hr
    by_cases he : (lowerList (stripChars t.data)).isEmpty = true
    · simp only [filterRecords, if_pos he] at hr
      exact absurd hr (List.not_mem_nil r)
    · simp only [filterRecords, if_neg he] at hr
      rcases List.mem_filter.mp hr with ⟨hmem, hpred⟩
      rw [containsIgnoreCase, show (stripString t).data = stripChars t.data from rfl]
      rwa [lowerList_lowerList] at hpred
  · by_cases he : (lowerList (stripChars t.data)).isEmpty = true
    · simp only [filterRecords, if_pos he]
      exact List.nil_sublist records
    · simp only [filterRecords, if_neg he]
      exact List.filter_sublist records

/-- Claim C5 witness: the amended theorem instantiated at one record with
category "Flu" and the upper-case term "FLU". -/
theorem C5_case_insensitive_filter_witness :
    filterRecords [{ LAT := 0, LON := 0, Disease := "Flu" }] "FLU" =
        filterRecords [{ LAT := 0, LON := 0, Disease := "Flu" }] (lowerString "FLU") ∧
    (∀ r ∈ filterRecords [{ LAT := 0, LON := 0, Disease := "Flu" }] "FLU",
        containsIgnoreCase r.Disease (stripString "FLU") = true) ∧
    (filterRecords [{ LAT := 0, LON := 0, Disease := "Flu" }] "FLU").Sublist
        [{ LAT := 0, LON := 0, Disease := "Flu" }] :=
  C5_case_insensitive_filter [{ LAT := 0, LON := 0, Disease := "Flu" }] "FLU"

/-! ## Claim C9: invalid user coordinates are non-fatal -/

lemma mapCenterZoom_none_found (dataset : List LocationRecord)
    (found : List SearchResult) (hf : found ≠ []) :
    (mapCenterZoom dataset none none found).1 =
      [meanQ (found.map SearchResult.lon), meanQ (found.map SearchResult.lat)] := by
  simp [mapCenterZoom, List.isEmpty_iff, hf]

lemma mapCenterZoom_none_nil (dataset : List LocationRecord) (hd : dataset ≠ []) :
    (mapCenterZoom dataset none none []).1 =
      [meanQ (dataset.map LocationRecord.LON), meanQ (dataset.map LocationRecord.LAT)] := by
  simp [mapCenterZoom, List.isEmpty_iff, hd]

/-- A parse model for the C9 theorems: only "1.0" parses. -/
def badCoordParse : String → Option ℚ := fun s => if s = "1.0" then some 1 else none

/-- An oracle for the C9 theorems (never reached, since the coordinates
are treated as not provided). -/
def badCoordOracle : ℕ → CallResult := fun _ => CallResult.otherError "down"

/-- The two-row dataset of the C9 counterexample; its dataset-wide mean
center is [1, 1]. -/
def badCoordData : List LocationRecord :=
  [{ LAT := 0, LON := 0, Disease := "apple" },
   { LAT := 2, LON := 2, Disease := "banana" }]

/-- The C9 form: a term matching one row, a latitude that fails to parse,
a longitude that parses. -/
def badCoordForm : RequestForm :=
  { disease_name := some "apple", user_lat := some "abc", user_lon := some "1.0" }

/-- Claim C9 counterexample: with a matching search term and a non-numeric
latitude, both user coordinates are treated as not provided, but the map
centers on the mean of the found results ([0, 0] here), not on the
dataset-wide mean ([1, 1]) — so "falls back to dataset-mean centering"
fails whenever the search has results. -/
theorem C9_counterexample :
    (indexPost badCoordParse badCoordOracle badCoordData badCoordForm).user_lat = none ∧
    (indexPost badCoordParse badCoordOracle badCoordData badCoordForm).user_lon = none ∧
    (indexPost badCoordParse badCoordOracle badCoordData badCoordForm).locations ≠ [] ∧
    (indexPost badCoordParse badCoordOracle badCoordData badCoordForm).map_center ≠
      [meanQ (badCoordData.map LocationRecord.LON),
       meanQ (badCoordData.map LocationRecord.LAT)] := by
  refine ⟨rfl, rfl, by decide, ?_⟩
  have hc : (indexPost badCoordParse badCoordOracle badCoordData badCoordForm).map_center
      = [meanQ [(0:ℚ)], meanQ [(0:ℚ)]] := rfl
  rw [hc]
  simp only [badCoordData, List.map_cons, List.map_nil, meanQ, List.sum_cons, List.sum_nil,
    List.length_cons, List.length_nil]
  intro hlist
  rw [List.cons_eq_cons] at hlist
  have h0 := hlist.1
  norm_num at h0

/-- Claim C9 (amended): a POST whose submitted user latitude or longitude
fails numeric parsing is non-fatal: both user coordinates are treated as
not provided, and the map falls back to the no-user-location centering —
the mean of the found results when the search has results, else the
dataset-wide mean when the dataset is non-empty. -/
theorem C9_invalid_coords_nonfatal (parseFloat : String → Option ℚ)
    (oracle : ℕ → CallResult) (dataset : List LocationRecord) (form : RequestForm)
    (h : (∃ s, form.user_lat = some s ∧ s.isEmpty = false ∧ parseFloat s = none) ∨
         (∃ s, form.user_lon = some s ∧ s.isEmpty = false ∧ parseFloat s = none)) :
    (indexPost parseFloat oracle dataset form).user_lat = none ∧
    (indexPost parseFloat oracle dataset form).user_lon = none ∧
    ((indexPost parseFloat oracle dataset form).locations ≠ [] →
      (indexPost parseFloat oracle dataset form).map_center =
        [meanQ ((indexPost parseFloat oracle dataset form).locations.map SearchResult.lon),
         meanQ ((indexPost parseFloat oracle dataset form).locations.map SearchResult.lat)]) ∧
    ((indexPost parseFloat oracle dataset form).locations = [] → dataset ≠ [] →
      (indexPost parseFloat oracle dataset form).map_center =
        [meanQ (dataset.map LocationRecord.LON),
         meanQ (dataset.map LocationRecord.LAT)]) := by
  have hu : parseUserLoc parseFloat form.user_lat form.user_lon = (none, none) := by
    rcases h with ⟨s, hs, hne2, hp⟩ | ⟨s, hs, hne2, hp⟩
    · have hstep : parseStep parseFloat form.user_lat = none := by
        simp [parseStep, hs, hne2, hp]
      simp [parseUserLoc, hstep]
    · have hstep : parseStep parseFloat form.user_lon = none := by
        simp [parseStep, hs, hne2, hp]
      rcases hlat : parseStep parseFloat form.user_lat with _ | v
      · simp [parseUserLoc, hlat]
      · simp [parseUserLoc, hlat, hstep]
  have hcond : ¬ ((parseUserLoc parseFloat form.user_lat form.user_lon).1.isSome = true ∧
      (parseUserLoc parseFloat form.user_lat form.user_lon).2.isSome = true) := by
    rw [hu]
    simp
  have hfound : (indexPost parseFloat oracle dataset form).locations
      = (filterRecords dataset (stripString (form.disease_name.getD ""))).map plainRow := by
    simp only [indexPost]
    rw [if_neg hcond]
  have hcenter : (indexPost parseFloat oracle dataset form).map_center
      = (mapCenterZoom dataset none none
          ((filterRecords dataset (stripString (form.disease_name.getD ""))).map plainRow)).1 := by
    simp only [indexPost]
    rw [if_neg hcond, hu]
  refine ⟨?_, ?_, ?_, ?_⟩
  · simp only [indexPost]
    rw [hu]
  · simp only [indexPost]
    rw [hu]
  · intro h3
    rw [hfound] at h3
    rw [hcenter, hfound]
    exact mapCenterZoom_none_found dataset _ h3
  · intro h3 hd
    rw [hfound] at h3
    rw [hcenter, h3]
    exact mapCenterZoom_none_nil dataset hd

/-- Claim C9 witness: the amended theorem instantiated at the concrete
request whose latitude "abc" fails to parse. -/
theorem C9_invalid_coords_nonfatal_witness :
    ((∃ s, badCoordForm.user_lat = some s ∧ s.isEmpty = false ∧ badCoordParse s = none) ∨
      (∃ s, badCoordForm.user_lon = some s ∧ s.isEmpty = false ∧ badCoordParse s = none)) ∧
    ((indexPost badCoordParse badCoordOracle badCoordData badCoordForm).user_lat = none ∧
      (indexPost badCoordParse badCoordOracle badCoordData badCoordForm).user_lon = none ∧
      ((indexPost badCoordParse badCoordOracle badCoordData badCoordForm).locations ≠ [] →
        (indexPost badCoordParse badCoordOracle badCoordData badCoordForm).map_center =
          [meanQ ((indexPost badCoordParse badCoordOracle badCoordData
              badCoordForm).locations.map SearchResult.lon),
           meanQ ((indexPost badCoordParse badCoordOracle badCoordData
              badCoordForm).locations.map SearchResult.lat)]) ∧
      ((indexPost badCoordParse badCoordOracle badCoordData badCoordForm).locations = [] →
        badCoordData ≠ [] →
        (indexPost badCoordParse badCoordOracle badCoordData badCoordForm).map_center =
          [meanQ (badCoordData.map LocationRecord.LON),
           meanQ (badCoordData.map LocationRecord.LAT)])) :=
  ⟨Or.inl ⟨"abc", rfl, rfl, rfl⟩,
    C9_invalid_coords_nonfatal badCoordParse badCoordOracle badCoordData badCoordForm
      (Or.inl ⟨"abc", rfl, rfl, rfl⟩)⟩
